import Mathlib

/-!
# Verification of the `04-gltf-model` example (vgfw repository)

Shallow embedding of `examples/04-gltf-model/main.cpp`:

* the GLSL fragment-shader helper functions (`DistributionGGX`,
  `GeometrySmith_GGX`, `GeometrySmith`, `fresnelSchlick`) are embedded as
  functions over `ℚ` (GLSL `float` arithmetic, modelled exactly);
* `main` is embedded as a function from an environment (the results of the
  external framework calls: `vgfw::init`, `vgfw::io::load`, the number of
  iterations the window stays open) to an exit code together with a trace of
  the external calls the program issues, in program order.

The framework itself (`vgfw.hpp`) is not part of this repository's sources;
the data model it hands to the example (`vgfw::resource::Model` and friends)
is modelled from the spec where needed, as noted on each definition.
-/

namespace Vgfw

/-! ## GLSL vector arithmetic (shader maths is over `float`, embedded as `ℚ`) -/

/-- A GLSL `vec3` of `float` components, embedded over `ℚ`. -/
structure Vec3 where
  x : ℚ
  y : ℚ
  z : ℚ
deriving DecidableEq

/-- GLSL `dot` on `vec3`. -/
def dot (a b : Vec3) : ℚ := a.x * b.x + a.y * b.y + a.z * b.z

/-- Componentwise `vec3` addition. -/
def Vec3.add (a b : Vec3) : Vec3 := ⟨a.x + b.x, a.y + b.y, a.z + b.z⟩

/-- Componentwise `vec3` subtraction. -/
def Vec3.sub (a b : Vec3) : Vec3 := ⟨a.x - b.x, a.y - b.y, a.z - b.z⟩

/-- Scalar times `vec3` (GLSL `float * vec3` / `vec3 * float`). -/
def Vec3.smul (s : ℚ) (v : Vec3) : Vec3 := ⟨s * v.x, s * v.y, s * v.z⟩

/-- GLSL scalar-to-`vec3` splat, e.g. `vec3(1.0)`. -/
def Vec3.const (s : ℚ) : Vec3 := ⟨s, s, s⟩

/-- The π literal the shader source spells out
(`3.1415926535897932384626433832795`, main.cpp line 57). -/
def piLit : ℚ := 3.1415926535897932384626433832795

/-! ## The fragment shader's Cook-Torrance helper functions
(main.cpp lines 48–88, GLSL source embedded verbatim). -/

/-- `DistributionGGX` (main.cpp lines 48–60): Trowbridge-Reitz GGX normal
distribution, with the divide clamped from below to `0.001`. -/
def DistributionGGX (N H : Vec3) (roughness : ℚ) : ℚ :=
  let a := roughness * roughness
  let a2 := a * a
  let NdotH := max (dot N H) 0
  let NdotH2 := NdotH * NdotH
  let num := a2
  let denom0 := NdotH2 * (a2 - 1) + 1
  let denom := piLit * denom0 * denom0
  num / max denom 0.001

/-- The exact divisor used by `DistributionGGX` (the `max(denom, 0.001)` of
main.cpp line 59), exposed as its own definition so the division guard can be
stated. -/
def DistributionGGX_divisor (N H : Vec3) (roughness : ℚ) : ℚ :=
  let a := roughness * roughness
  let a2 := a * a
  let NdotH := max (dot N H) 0
  let NdotH2 := NdotH * NdotH
  let denom0 := NdotH2 * (a2 - 1) + 1
  let denom := piLit * denom0 * denom0
  max denom 0.001

/-- `GeometrySmith_GGX` (main.cpp lines 62–71): the Schlick-GGX term.
The source also computes `a2 = a * a` but never uses it; it is reproduced
here all the same. -/
def GeometrySmith_GGX (NdotX roughness : ℚ) : ℚ :=
  let a := roughness * roughness
  let _a2 := a * a
  let num := NdotX
  let denom := NdotX * (1 - a) + a
  num / denom

/-- `GeometrySmith` (main.cpp lines 74–82): Smith's method, the product of the
Schlick-GGX terms for the view and light directions. -/
def GeometrySmith (N V L : Vec3) (roughness : ℚ) : ℚ :=
  let NdotV := max (dot N V) 0
  let NdotL := max (dot N L) 0
  let ggx2 := GeometrySmith_GGX NdotV roughness
  let ggx1 := GeometrySmith_GGX NdotL roughness
  ggx1 * ggx2

/-- `fresnelSchlick` (main.cpp lines 85–88): Schlick's Fresnel approximation,
componentwise on `vec3`. -/
def fresnelSchlick (cosTheta : ℚ) (F0 : Vec3) : Vec3 :=
  Vec3.add F0 (Vec3.smul ((1 - cosTheta) ^ 5) (Vec3.sub (Vec3.const 1) F0))

/-! Reference formulations written from the claim's own wording (with
`a = roughness^2`), to compare against the embedded shader source. -/

/-- The GGX distribution exactly as the claim words it:
`a^2 / max(pi * ((max(dot(N,H),0)^2 * (a^2 - 1) + 1))^2, 0.001)` with
`a = roughness^2`. -/
def DistributionGGX_specFormula (N H : Vec3) (roughness : ℚ) : ℚ :=
  let a := roughness ^ 2
  a ^ 2 / max (piLit * (max (dot N H) 0 ^ 2 * (a ^ 2 - 1) + 1) ^ 2) 0.001

/-- The Smith geometry factor exactly as the claim words it: the product of
`NdotX / (NdotX * (1 - a) + a)` at `NdotX = max(dot(N,V),0)` and
`NdotX = max(dot(N,L),0)`, with `a = roughness^2`. -/
def GeometrySmith_specFormula (N V L : Vec3) (roughness : ℚ) : ℚ :=
  let a := roughness ^ 2
  let NdotV := max (dot N V) 0
  let NdotL := max (dot N L) 0
  (NdotV / (NdotV * (1 - a) + a)) * (NdotL / (NdotL * (1 - a) + a))

/-- The Fresnel term exactly as the claim words it:
`F0 + (1 - F0) * (1 - cosTheta)^5`, componentwise. -/
def fresnelSchlick_specFormula (cosTheta : ℚ) (F0 : Vec3) : Vec3 :=
  Vec3.add F0 (Vec3.smul ((1 - cosTheta) ^ 5) (Vec3.sub (Vec3.const 1) F0))

/-! ## The data model the demo consumes

`vgfw::resource::Model` and its parts live in the external framework header
(`vgfw.hpp`), which is not among this repository's sources; they are modelled
from the spec (§3 DATA MODEL): "a loaded model (meshes, each with vertex/index
arrays and a material index; a material referencing texture indices; a texture
map keyed by index)". Textures are identified by their object identity
(`Texture*` in the source), modelled as a `Nat` id. -/

/-- Modelled from the spec: a vertex of the framework's default vertex format,
matching the shader's input layout (position, normal, texture coordinates). -/
structure Vertex where
  px : ℚ
  py : ℚ
  pz : ℚ
  nx : ℚ
  ny : ℚ
  nz : ℚ
  u : ℚ
  v : ℚ
deriving DecidableEq

instance : Inhabited Vertex := ⟨⟨0, 0, 0, 0, 0, 0, 0, 0⟩⟩

/-- Modelled from the spec: a material referencing texture indices. -/
structure Material where
  BaseColorTextureIndex : Nat
deriving DecidableEq

instance : Inhabited Material := ⟨⟨0⟩⟩

/-- Modelled from the spec: a mesh with vertex/index arrays and a material
index. -/
structure Mesh where
  MaterialIndex : Nat
  Indices : List Nat
  Vertices : List Vertex
deriving DecidableEq

instance : Inhabited Mesh := ⟨⟨0, [], []⟩⟩

/-- Modelled from the spec: the loaded model — meshes, a material table and a
texture table, both indexed by the indices stored in meshes/materials. -/
structure Model where
  Meshes : List Mesh
  MaterialMap : List Material
  TextureMap : List Nat
deriving DecidableEq

instance : Inhabited Model := ⟨⟨[], [], []⟩⟩

/-- The window configuration passed to `vgfw::window::create`
(main.cpp line 136). -/
structure WindowConfig where
  Title : String
  EnableMSAA : Bool
  AASample : Nat
deriving DecidableEq

/-- One external-call event of the demo, in the order `main` issues them.
`printErr` stands for the `std::cerr` diagnostic; `updateTransforms` marks the
per-frame model/view/projection computation (main.cpp lines 207–218); the rest
name the framework calls of the same lines of `main`. -/
inductive Event where
  | initVGFW
  | printErr (msg : String)
  | createWindow (cfg : WindowConfig)
  | initRenderer
  | buildVertexFormat
  | getVertexArray
  | createProgram
  | buildPipeline
  | loadModel (path : String)
  | createIndexBuffer (indices : List Nat)
  | createVertexBuffer (vertices : List Vertex)
  | onTick
  | updateTransforms
  | beginRendering
  | bindPipeline
  | setUniformMat4 (name : String)
  | setUniformVec3 (name : String)
  | bindTexture (slot : Nat) (texture : Nat)
  | draw (numIndices numVertices : Nat)
  | beginImGui
  | imguiWidgets
  | endImGui
  | present
  | destroyBuffer (which : String)
  | shutdown
deriving DecidableEq

/-- The texture lookups of main.cpp lines 177–180: both the `baseColor` and the
`metallicRoughness` texture are fetched as
`TextureMap[MaterialMap[Meshes[0].MaterialIndex].BaseColorTextureIndex]`.
`none` is the out-of-bounds branch of the lookups. -/
def getTextures (m : Model) : Option (Nat × Nat) := do
  let mesh0 ← m.Meshes[0]?
  let matBase ← m.MaterialMap[mesh0.MaterialIndex]?
  let baseColorTexture ← m.TextureMap[matBase.BaseColorTextureIndex]?
  let matMR ← m.MaterialMap[mesh0.MaterialIndex]?
  let metallicRoughnessTexture ← m.TextureMap[matMR.BaseColorTextureIndex]?
  return (baseColorTexture, metallicRoughnessTexture)

/-- The trace of one iteration of the main loop (main.cpp lines 202–250). -/
def frameTrace (mesh0 : Mesh) (baseColorTex metallicRoughnessTex : Nat) : List Event :=
  [Event.onTick,
   Event.updateTransforms,
   Event.beginRendering,
   Event.bindPipeline,
   Event.setUniformMat4 "model",
   Event.setUniformMat4 "view",
   Event.setUniformMat4 "projection",
   Event.setUniformVec3 "lightPos",
   Event.setUniformVec3 "viewPos",
   Event.setUniformVec3 "lightColor",
   Event.setUniformVec3 "objectColor",
   Event.bindTexture 0 baseColorTex,
   Event.bindTexture 1 metallicRoughnessTex,
   Event.draw mesh0.Indices.length mesh0.Vertices.length,
   Event.beginImGui,
   Event.imguiWidgets,
   Event.endImGui,
   Event.present]

/-- The `while (!window->ShouldClose())` loop, run for `n` iterations. -/
def loopTrace : Nat → List Event → List Event
  | 0, _ => []
  | n + 1, frame => frame ++ loopTrace n frame

/-- The straight-line setup before model loading (main.cpp lines 129–167):
init, window creation, renderer init, vertex format, VAO, shader program,
graphics pipeline. -/
def setupTrace : List Event :=
  [Event.initVGFW,
   Event.createWindow { Title := "04-gltf-model", EnableMSAA := true, AASample := 8 },
   Event.initRenderer,
   Event.buildVertexFormat,
   Event.getVertexArray,
   Event.createProgram,
   Event.buildPipeline]

/-- The environment `main` runs in: the boolean results of `vgfw::init` and
`vgfw::io::load`, the model the loader populates on success, and the number of
loop iterations until `window->ShouldClose()` becomes true. -/
structure Env where
  initOk : Bool
  loadOk : Bool
  model : Model
  frames : Nat
deriving DecidableEq

/-- The embedding of `main` (main.cpp lines 126–258): exit code together with
the trace of issued calls. On a missing-key texture lookup the C++ map returns
a null handle and the program carries on; the embedding mirrors that with
`Option.getD`. -/
def mainRun (env : Env) : Int × List Event :=
  if !env.initOk then
    (-1, [Event.initVGFW, Event.printErr "Failed to initialize VGFW"])
  else if !env.loadOk then
    (-1, setupTrace ++ [Event.loadModel "assets/models/Suzanne.gltf"])
  else
    let m := env.model
    let mesh0 := m.Meshes[0]?.getD default
    let texPair := (getTextures m).getD (0, 0)
    (0,
     setupTrace ++
     [Event.loadModel "assets/models/Suzanne.gltf",
      Event.createIndexBuffer mesh0.Indices,
      Event.createVertexBuffer mesh0.Vertices] ++
     loopTrace env.frames (frameTrace mesh0 texPair.1 texPair.2) ++
     [Event.destroyBuffer "indexBuffer",
      Event.destroyBuffer "vertexBuffer",
      Event.shutdown])

/-- A sample model used by concrete witnesses: one mesh (a second mesh is
present to exercise the "extra meshes are ignored" claims), one material,
one texture. -/
def sampleModel : Model :=
  { Meshes := [{ MaterialIndex := 0, Indices := [0, 1, 2], Vertices := [] },
               { MaterialIndex := 0, Indices := [2, 1, 0], Vertices := [] }],
    MaterialMap := [{ BaseColorTextureIndex := 0 }],
    TextureMap := [7] }

/-! ## C6: exactly one window, with the configured title and MSAA -/

/-- Recognizer for window-creation events. -/
def isCreateWindow : Event → Bool
  | .createWindow _ => true
  | _ => false

/-! ## C4: the table lookups are in bounds under the loader's invariant -/

/-- The invariant the spec attributes to the external loader: material and
texture indices are valid within the loaded model's tables. -/
def modelIndicesValid (m : Model) : Prop :=
  (∀ mesh ∈ m.Meshes, mesh.MaterialIndex < m.MaterialMap.length) ∧
  (∀ mat ∈ m.MaterialMap, mat.BaseColorTextureIndex < m.TextureMap.length)

instance (m : Model) : Decidable (modelIndicesValid m) := by
  unfold modelIndicesValid
  infer_instance

/-- The events of one frame that bind a texture, as (slot, texture id) pairs. -/
def bindArgs : Event → Option (Nat × Nat)
  | .bindTexture s u => some (s, u)
  | _ => none

/-! ## C7: the external loader's contract -/

/-- Modelled from the spec: `vgfw::io::load` lives in the external framework
header (`vgfw.hpp`), which is not among this repository's sources. The spec's
integration-level contract (§8) is: "given a valid glTF file, load returns
true and populates at least one mesh with a valid material index". A valid
glTF file is one that parses to a model conforming to the glTF index-validity
rules: a nonempty mesh list, material indices within the material table, and
texture indices within the texture table. -/
def gltfConformant (m : Model) : Bool :=
  !m.Meshes.isEmpty &&
  m.Meshes.all (fun mesh => mesh.MaterialIndex < m.MaterialMap.length) &&
  m.MaterialMap.all (fun mat => mat.BaseColorTextureIndex < m.TextureMap.length)

/-- Modelled from the spec: `vgfw::io::load` (called at main.cpp line 171).
The file system maps a path to the model its glTF file parses to (`none` when
the file is missing or unparsable); `load` returns a success boolean and
populates the out-parameter model, leaving it default-initialized on
failure. -/
def io.load (fileSystem : String → Option Model) (path : String) : Bool × Model :=
  match fileSystem path with
  | some m => (true, m)
  | none => (false, default)

/-! ## C9: only `Meshes[0]` is ever uploaded or drawn -/

/-- The arguments of draw events. -/
def drawArgs : Event → Option (Nat × Nat)
  | .draw i v => some (i, v)
  | _ => none

/-! ## C3: the order of the program's phases -/

/-- The phase an event belongs to: 0 framework initialization (and its error
diagnostic), 1 window/renderer/pipeline construction, 2 model loading, 3 mesh
GPU buffer creation, 4 the per-frame loop, 5 teardown. -/
def phaseOf : Event → Nat
  | .initVGFW => 0
  | .printErr _ => 0
  | .createWindow _ => 1
  | .initRenderer => 1
  | .buildVertexFormat => 1
  | .getVertexArray => 1
  | .createProgram => 1
  | .buildPipeline => 1
  | .loadModel _ => 2
  | .createIndexBuffer _ => 3
  | .createVertexBuffer _ => 3
  | .destroyBuffer _ => 5
  | .shutdown => 5
  | _ => 4

/-- The step of a frame an in-frame event belongs to: 0 tick/transform update,
1 binding (pipeline, uniforms, textures), 2 draw, 3 UI, 4 present. -/
def framePhase : Event → Nat
  | .draw _ _ => 2
  | .beginImGui => 3
  | .imguiWidgets => 3
  | .endImGui => 3
  | .present => 4
  | .beginRendering => 1
  | .bindPipeline => 1
  | .setUniformMat4 _ => 1
  | .setUniformVec3 _ => 1
  | .bindTexture _ _ => 1
  | _ => 0

/-- GPU-resource-construction events: vertex format, VAO, shader program,
pipeline, index buffer, vertex buffer. -/
def isResourceConstruction : Event → Bool
  | .buildVertexFormat => true
  | .getVertexArray => true
  | .createProgram => true
  | .buildPipeline => true
  | .createIndexBuffer _ => true
  | .createVertexBuffer _ => true
  | _ => false

/-- Model-loading events. -/
def isLoadEvent : Event → Bool
  | .loadModel _ => true
  | _ => false

/-- The prefix of a successful run, up to and including buffer creation. -/
def preTrace (model : Model) : List Event :=
  setupTrace ++
  [Event.loadModel "assets/models/Suzanne.gltf",
   Event.createIndexBuffer (model.Meshes[0]?.getD default).Indices,
   Event.createVertexBuffer (model.Meshes[0]?.getD default).Vertices]

/-- C2: the fragment shader's specular term is the standard Cook-Torrance
formula set: `DistributionGGX` equals the claimed GGX distribution,
`GeometrySmith` equals the product of the two Schlick-GGX terms, and
`fresnelSchlick` equals `F0 + (1 - F0) * (1 - cosTheta)^5`, for all inputs. -/
theorem shader_brdf_formulas :
    (∀ N H roughness, DistributionGGX N H roughness =
      DistributionGGX_specFormula N H roughness) ∧
    (∀ N V L roughness, GeometrySmith N V L roughness =
      GeometrySmith_specFormula N V L roughness) ∧
    (∀ cosTheta F0, fresnelSchlick cosTheta F0 =
      fresnelSchlick_specFormula cosTheta F0) := by
  refine ⟨fun N H roughness => ?_, fun N V L roughness => ?_, fun cosTheta F0 => rfl⟩
  · unfold DistributionGGX DistributionGGX_specFormula
    ring_nf
  · unfold GeometrySmith GeometrySmith_specFormula GeometrySmith_GGX
    ring_nf

/-- C10: the division in `DistributionGGX` is guarded: its divisor is clamped
from below to `0.001`, hence nonzero, and `DistributionGGX` is exactly the
numerator `a2 = (roughness*roughness)*(roughness*roughness)` divided by that
clamped divisor — for every input, including `roughness = 0` with
`dot(N,H) = 1`. -/
theorem ggx_division_guarded (N H : Vec3) (roughness : ℚ) :
    (0.001 : ℚ) ≤ DistributionGGX_divisor N H roughness ∧
    DistributionGGX_divisor N H roughness ≠ 0 ∧
    DistributionGGX N H roughness =
      roughness * roughness * (roughness * roughness) /
        DistributionGGX_divisor N H roughness := by
  refine ⟨le_max_right _ _, fun h => ?_, rfl⟩
  have h1 : (0.001 : ℚ) ≤ DistributionGGX_divisor N H roughness := le_max_right _ _
  rw [h] at h1
  norm_num at h1

/-! ## Helper lemmas about the traces -/

/-- Any per-element fact about a trace segment whose image under `f` is
constant, obtained from the (definitionally checkable) `map`/`replicate`
equation. -/
theorem map_const_of_mem {β : Type} {f : Event → β} {l : List Event} {c : β}
    (h : l.map f = List.replicate l.length c) {e : Event} (he : e ∈ l) : f e = c := by
  have hm : f e ∈ l.map f := List.mem_map_of_mem f he
  rw [h] at hm
  exact List.eq_of_mem_replicate hm

theorem mem_loopTrace {n : Nat} {frame : List Event} {e : Event}
    (he : e ∈ loopTrace n frame) : e ∈ frame := by
  induction n with
  | zero => simp [loopTrace] at he
  | succ n ih =>
    rw [loopTrace, List.mem_append] at he
    exact he.elim id ih

theorem loopTrace_length (n : Nat) (frame : List Event) :
    (loopTrace n frame).length = n * frame.length := by
  induction n with
  | zero => simp [loopTrace]
  | succ n ih => simp [loopTrace, ih, Nat.succ_mul, Nat.add_comm]

theorem loopTrace_getElem (frame : List Event) (n i k : Nat) (hin : i < n)
    (hk : k < frame.length) :
    (loopTrace n frame)[i * frame.length + k]? = frame[k]? := by
  induction n generalizing i with
  | zero => omega
  | succ n ih =>
    rw [loopTrace]
    cases i with
    | zero =>
      rw [Nat.zero_mul, Nat.zero_add]
      exact List.getElem?_append_left hk
    | succ i =>
      have hsm : (i + 1) * frame.length = i * frame.length + frame.length :=
        Nat.succ_mul i _
      have hlen : frame.length ≤ (i + 1) * frame.length + k := by omega
      rw [List.getElem?_append_right hlen]
      have harith : (i + 1) * frame.length + k - frame.length = i * frame.length + k := by
        omega
      rw [harith]
      exact ih i (by omega)

theorem loopTrace_drop (frame : List Event) (n i : Nat) (h : i ≤ n) :
    (loopTrace n frame).drop (i * frame.length) = loopTrace (n - i) frame := by
  induction i generalizing n with
  | zero => simp
  | succ i ih =>
    cases n with
    | zero => omega
    | succ n =>
      rw [loopTrace]
      have hsm : (i + 1) * frame.length = i * frame.length + frame.length :=
        Nat.succ_mul i _
      have harith : (i + 1) * frame.length = frame.length + i * frame.length := by
        omega
      rw [harith, ← List.drop_drop, List.drop_left, Nat.succ_sub_succ]
      exact ih n (by omega)

theorem frameTrace_length (mesh0 : Mesh) (b t : Nat) :
    (frameTrace mesh0 b t).length = 18 := rfl

theorem present_mem_loopTrace (n : Nat) (mesh0 : Mesh) (b t : Nat) :
    Event.present ∈ loopTrace (n + 1) (frameTrace mesh0 b t) := by
  rw [loopTrace, List.mem_append]
  left
  simp [frameTrace]

/-! ## C1: the two failure exits of `main` -/

/-- C1: `main` has exactly two failure exits: if `vgfw::init()` returns false
the program prints a diagnostic and returns a nonzero exit code; if
`vgfw::io::load` returns false it returns a nonzero exit code printing
nothing; when both succeed it runs the render loop and returns 0. -/
theorem main_exit_code_spec (env : Env) :
    (env.initOk = false →
      (mainRun env).1 ≠ 0 ∧
      Event.printErr "Failed to initialize VGFW" ∈ (mainRun env).2) ∧
    (env.initOk = true → env.loadOk = false →
      (mainRun env).1 ≠ 0 ∧ ∀ msg, Event.printErr msg ∉ (mainRun env).2) ∧
    (env.initOk = true → env.loadOk = true →
      (mainRun env).1 = 0 ∧
      (0 < env.frames → Event.present ∈ (mainRun env).2)) := by
  refine ⟨fun h1 => ?_, fun h1 h2 => ?_, fun h1 h2 => ?_⟩
  · simp [mainRun, h1]
  · constructor
    · simp [mainRun, h1, h2]
    · intro msg
      simp [mainRun, h1, h2, setupTrace]
  · constructor
    · simp [mainRun, h1, h2]
    · intro hf
      rcases env with ⟨initOk, loadOk, model, frames⟩
      simp only at h1 h2 hf
      subst h1
      subst h2
      obtain ⟨k, rfl⟩ := Nat.exists_eq_succ_of_ne_zero (Nat.pos_iff_ne_zero.mp hf)
      have hred :
          (mainRun ⟨true, true, model, k.succ⟩).2 =
            setupTrace ++
            ([Event.loadModel "assets/models/Suzanne.gltf",
              Event.createIndexBuffer (model.Meshes[0]?.getD default).Indices,
              Event.createVertexBuffer (model.Meshes[0]?.getD default).Vertices] ++
             (loopTrace k.succ
               (frameTrace (model.Meshes[0]?.getD default)
                 ((getTextures model).getD (0, 0)).1
                 ((getTextures model).getD (0, 0)).2) ++
              [Event.destroyBuffer "indexBuffer",
               Event.destroyBuffer "vertexBuffer",
               Event.shutdown])) := rfl
      rw [hred]
      exact List.mem_append.mpr (Or.inr (List.mem_append.mpr (Or.inr
        (List.mem_append.mpr (Or.inl (present_mem_loopTrace k _ _ _))))))

/-- C1 witness: the three exit codes at concrete environments. -/
theorem main_exit_code_spec_witness :
    (mainRun ⟨false, true, sampleModel, 1⟩).1 ≠ 0 ∧
    (mainRun ⟨true, false, sampleModel, 1⟩).1 ≠ 0 ∧
    (mainRun ⟨true, true, sampleModel, 1⟩).1 = 0 :=
  ⟨((main_exit_code_spec ⟨false, true, sampleModel, 1⟩).1 rfl).1,
   ((main_exit_code_spec ⟨true, false, sampleModel, 1⟩).2.1 rfl rfl).1,
   ((main_exit_code_spec ⟨true, true, sampleModel, 1⟩).2.2 rfl rfl).1⟩

/-- C6: the program creates exactly one window (never more than one on any
path, and exactly one — with title "04-gltf-model", MSAA enabled and sample
count 8 — whenever initialization succeeds). -/
theorem single_window_with_config (env : Env) :
    ((mainRun env).2.filter isCreateWindow).length ≤ 1 ∧
    (env.initOk = true →
      (mainRun env).2.filter isCreateWindow =
        [Event.createWindow
          { Title := "04-gltf-model", EnableMSAA := true, AASample := 8 }]) := by
  have hloop : ∀ n mesh0 b t,
      (loopTrace n (frameTrace mesh0 b t)).filter isCreateWindow = [] := by
    intro n mesh0 b t
    rw [List.filter_eq_nil_iff]
    intro e he
    have : isCreateWindow e = false :=
      map_const_of_mem (f := isCreateWindow) (l := frameTrace mesh0 b t) (c := false)
        rfl (mem_loopTrace he)
    simp [this]
  rcases env with ⟨initOk, loadOk, model, frames⟩
  cases initOk
  · exact ⟨by simp [mainRun, isCreateWindow], fun h => by simp at h⟩
  · cases loadOk
    · refine ⟨?_, fun _ => ?_⟩ <;>
        simp [mainRun, setupTrace, List.filter_append, isCreateWindow]
    · refine ⟨?_, fun _ => ?_⟩ <;>
        simp [mainRun, setupTrace, List.filter_append, isCreateWindow, hloop]

/-- C6 witness: the window-creation trace at a concrete environment. -/
theorem single_window_with_config_witness :
    (mainRun ⟨true, true, sampleModel, 1⟩).2.filter isCreateWindow =
      [Event.createWindow
        { Title := "04-gltf-model", EnableMSAA := true, AASample := 8 }] :=
  (single_window_with_config ⟨true, true, sampleModel, 1⟩).2 rfl

/-- C4: under the precondition that the model has at least one mesh and its
material/texture indices are valid within its tables, every lookup of
main.cpp lines 177–180 is in bounds: the out-of-bounds (`none`) branch of
`getTextures` is not taken. -/
theorem texture_lookups_in_bounds (m : Model) (hne : m.Meshes ≠ [])
    (hvalid : modelIndicesValid m) : (getTextures m).isSome = true := by
  obtain ⟨hmat, htex⟩ := hvalid
  have h0 : 0 < m.Meshes.length := List.length_pos.mpr hne
  have hmesh0 : m.Meshes[0]? = some m.Meshes[0] := List.getElem?_eq_getElem h0
  have hmesh0mem : m.Meshes[0] ∈ m.Meshes := List.getElem_mem h0
  have hmatlt : m.Meshes[0].MaterialIndex < m.MaterialMap.length :=
    hmat _ hmesh0mem
  have hmatget : m.MaterialMap[m.Meshes[0].MaterialIndex]? =
      some m.MaterialMap[m.Meshes[0].MaterialIndex] :=
    List.getElem?_eq_getElem hmatlt
  have hmatmem : m.MaterialMap[m.Meshes[0].MaterialIndex] ∈ m.MaterialMap :=
    List.getElem_mem hmatlt
  have htexlt : m.MaterialMap[m.Meshes[0].MaterialIndex].BaseColorTextureIndex <
      m.TextureMap.length := htex _ hmatmem
  have htexget :
      m.TextureMap[m.MaterialMap[m.Meshes[0].MaterialIndex].BaseColorTextureIndex]? =
        some m.TextureMap[m.MaterialMap[m.Meshes[0].MaterialIndex].BaseColorTextureIndex] :=
    List.getElem?_eq_getElem htexlt
  simp [getTextures, hmesh0, hmatget, htexget]

/-- C4 witness: the lookups succeed on a concrete valid model. -/
theorem texture_lookups_in_bounds_witness :
    sampleModel.Meshes ≠ [] ∧ modelIndicesValid sampleModel ∧
    (getTextures sampleModel).isSome = true :=
  ⟨by decide, by decide, texture_lookups_in_bounds sampleModel (by decide) (by decide)⟩

/-! ## C5: the metallic-roughness sampler receives the base-color texture -/

theorem getTextures_fst_eq_snd {m : Model} {p : Nat × Nat}
    (h : getTextures m = some p) : p.1 = p.2 := by
  unfold getTextures at h
  rcases hm0 : m.Meshes[0]? with _ | mesh0 <;> rw [hm0] at h
  · simp at h
  simp only [Option.bind_eq_bind, Option.some_bind] at h
  rcases hmat : m.MaterialMap[mesh0.MaterialIndex]? with _ | mat <;> rw [hmat] at h
  · simp at h
  simp only [Option.bind_eq_bind, Option.some_bind] at h
  rcases htex : m.TextureMap[mat.BaseColorTextureIndex]? with _ | tex <;> rw [htex] at h
  · simp at h
  simp only [Option.bind_eq_bind, Option.some_bind, hmat, htex] at h
  simp [← Option.some.inj h]

theorem frameTrace_bindArgs (mesh0 : Mesh) (b t : Nat) :
    (frameTrace mesh0 b t).filterMap bindArgs = [(0, b), (1, t)] := rfl

/-- The success-path trace of `main`, spelled out. -/
theorem mainRun_success_trace (model : Model) (frames : Nat) :
    (mainRun ⟨true, true, model, frames⟩).2 =
      setupTrace ++
      ([Event.loadModel "assets/models/Suzanne.gltf",
        Event.createIndexBuffer (model.Meshes[0]?.getD default).Indices,
        Event.createVertexBuffer (model.Meshes[0]?.getD default).Vertices] ++
       (loopTrace frames
         (frameTrace (model.Meshes[0]?.getD default)
           ((getTextures model).getD (0, 0)).1
           ((getTextures model).getD (0, 0)).2) ++
        [Event.destroyBuffer "indexBuffer",
         Event.destroyBuffer "vertexBuffer",
         Event.shutdown])) := rfl

/-- Any event of a successful run is a setup event, the load, one of the two
buffer creations, a per-frame event, or a teardown event. -/
theorem mem_mainRun_success {model : Model} {frames : Nat} {e : Event}
    (he : e ∈ (mainRun ⟨true, true, model, frames⟩).2) :
    e ∈ setupTrace ∨
    (e = Event.loadModel "assets/models/Suzanne.gltf" ∨
     e = Event.createIndexBuffer (model.Meshes[0]?.getD default).Indices ∨
     e = Event.createVertexBuffer (model.Meshes[0]?.getD default).Vertices) ∨
    e ∈ frameTrace (model.Meshes[0]?.getD default)
        ((getTextures model).getD (0, 0)).1 ((getTextures model).getD (0, 0)).2 ∨
    (e = Event.destroyBuffer "indexBuffer" ∨ e = Event.destroyBuffer "vertexBuffer" ∨
     e = Event.shutdown) := by
  rw [mainRun_success_trace] at he
  rcases List.mem_append.mp he with h | h
  · exact Or.inl h
  rcases List.mem_append.mp h with h | h
  · refine Or.inr (Or.inl ?_)
    simpa using h
  rcases List.mem_append.mp h with h | h
  · exact Or.inr (Or.inr (Or.inl (mem_loopTrace h)))
  · refine Or.inr (Or.inr (Or.inr ?_))
    simpa using h

/-- C5: whenever `main` binds textures, the texture bound to slot 1 (the
shader's `metallicRoughness` sampler) is the very texture bound to slot 0
(the `baseColor` sampler): both are fetched through the material's
`BaseColorTextureIndex`. -/
theorem metallicRoughness_binding_aliases_baseColor (env : Env) (t t' : Nat)
    (h0 : Event.bindTexture 0 t ∈ (mainRun env).2)
    (h1 : Event.bindTexture 1 t' ∈ (mainRun env).2) : t = t' := by
  rcases env with ⟨initOk, loadOk, model, frames⟩
  cases initOk
  · simp [mainRun] at h0
  · cases loadOk
    · simp [mainRun, setupTrace] at h0
    · have key : ∀ s u, Event.bindTexture s u ∈ (mainRun ⟨true, true, model, frames⟩).2 →
          (s = 0 ∧ u = ((getTextures model).getD (0, 0)).1) ∨
          (s = 1 ∧ u = ((getTextures model).getD (0, 0)).2) := by
        intro s u hm
        rcases mem_mainRun_success hm with h | h | h | h
        · exfalso
          simp [setupTrace] at h
        · rcases h with h | h | h <;> simp at h
        · have hfm : (s, u) ∈ (frameTrace (model.Meshes[0]?.getD default)
              ((getTextures model).getD (0, 0)).1
              ((getTextures model).getD (0, 0)).2).filterMap bindArgs :=
            List.mem_filterMap.mpr ⟨_, h, rfl⟩
          rw [frameTrace_bindArgs] at hfm
          simpa using hfm
        · rcases h with h | h | h <;> simp at h
      have hgd : ((getTextures model).getD (0, 0)).1 =
          ((getTextures model).getD (0, 0)).2 := by
        cases hg : getTextures model with
        | none => rfl
        | some p => exact getTextures_fst_eq_snd hg
      rcases key 0 t h0 with ⟨_, rfl⟩ | ⟨hz, _⟩
      · rcases key 1 t' h1 with ⟨ho, _⟩ | ⟨_, rfl⟩
        · exact absurd ho (by decide)
        · exact hgd
      · exact absurd hz (by decide)

/-- C5 witness: in a concrete run, the two bound texture ids agree. -/
theorem metallicRoughness_binding_aliases_baseColor_witness :
    Event.bindTexture 0 7 ∈ (mainRun ⟨true, true, sampleModel, 1⟩).2 ∧
    Event.bindTexture 1 7 ∈ (mainRun ⟨true, true, sampleModel, 1⟩).2 ∧ (7 : Nat) = 7 := by
  refine ⟨by decide, by decide, ?_⟩
  exact metallicRoughness_binding_aliases_baseColor ⟨true, true, sampleModel, 1⟩ 7 7
    (by decide) (by decide)

/-- C7: given a valid glTF file at the requested path, `vgfw::io::load`
returns true and populates the model with at least one mesh whose
`MaterialIndex` is a valid index into the model's material table. -/
theorem io_load_valid_gltf (fileSystem : String → Option Model) (path : String)
    (m : Model) (hparse : fileSystem path = some m)
    (hconf : gltfConformant m = true) :
    (io.load fileSystem path).1 = true ∧
    (io.load fileSystem path).2 = m ∧
    ∃ mesh ∈ (io.load fileSystem path).2.Meshes,
      mesh.MaterialIndex < (io.load fileSystem path).2.MaterialMap.length := by
  have hload : io.load fileSystem path = (true, m) := by
    unfold io.load
    rw [hparse]
  refine ⟨by rw [hload], by rw [hload], ?_⟩
  rw [hload]
  simp only [gltfConformant, Bool.and_eq_true, List.all_eq_true,
    Bool.not_eq_true', List.isEmpty_eq_false_iff_exists_mem] at hconf
  obtain ⟨⟨⟨mesh, hmesh⟩, hall⟩, _⟩ := hconf
  exact ⟨mesh, hmesh, by simpa using hall mesh hmesh⟩

/-- C7 witness: a concrete file system holding a valid glTF model at the
requested path. -/
theorem io_load_valid_gltf_witness :
    (io.load
      (fun p => if p = "assets/models/Suzanne.gltf" then some sampleModel else none)
      "assets/models/Suzanne.gltf").1 = true ∧
    ∃ mesh ∈ (io.load
      (fun p => if p = "assets/models/Suzanne.gltf" then some sampleModel else none)
      "assets/models/Suzanne.gltf").2.Meshes,
      mesh.MaterialIndex < (io.load
        (fun p => if p = "assets/models/Suzanne.gltf" then some sampleModel else none)
        "assets/models/Suzanne.gltf").2.MaterialMap.length := by
  have h := io_load_valid_gltf
    (fun p => if p = "assets/models/Suzanne.gltf" then some sampleModel else none)
    "assets/models/Suzanne.gltf" sampleModel (by simp) (by decide)
  exact ⟨h.1, h.2.2⟩

theorem frameTrace_drawArgs (mesh0 : Mesh) (b t : Nat) :
    (frameTrace mesh0 b t).filterMap drawArgs =
      [(mesh0.Indices.length, mesh0.Vertices.length)] := rfl

/-- C9: only `Meshes[0]` is ever used. Part one: the whole run (exit code and
trace) is unchanged by replacing the model with any model agreeing with it at
mesh index 0 and on the material/texture tables — meshes at index 1 and above
are never consulted. Part two: the index buffer, vertex buffer and every
per-frame draw use exactly `Meshes[0]`'s arrays and counts. -/
theorem only_mesh_zero_used (env : Env) (m' : Model)
    (h0 : env.model.Meshes[0]? = m'.Meshes[0]?)
    (hmat : env.model.MaterialMap = m'.MaterialMap)
    (htex : env.model.TextureMap = m'.TextureMap) :
    mainRun { env with model := m' } = mainRun env ∧
    (∀ i v, Event.draw i v ∈ (mainRun env).2 →
      i = (env.model.Meshes[0]?.getD default).Indices.length ∧
      v = (env.model.Meshes[0]?.getD default).Vertices.length) ∧
    (∀ idx, Event.createIndexBuffer idx ∈ (mainRun env).2 →
      idx = (env.model.Meshes[0]?.getD default).Indices) ∧
    (∀ vtx, Event.createVertexBuffer vtx ∈ (mainRun env).2 →
      vtx = (env.model.Meshes[0]?.getD default).Vertices) := by
  have hget : getTextures env.model = getTextures m' := by
    unfold getTextures
    rw [h0, hmat, htex]
  refine ⟨?_, ?_, ?_, ?_⟩
  · unfold mainRun
    rcases env with ⟨initOk, loadOk, model, frames⟩
    simp only at h0 hget ⊢
    rw [h0, hget]
  all_goals
    rcases env with ⟨initOk, loadOk, model, frames⟩
    simp only at h0 hmat htex hget ⊢
    cases initOk
  · intro i v hm
    simp [mainRun] at hm
  · cases loadOk
    · intro i v hm
      simp [mainRun, setupTrace] at hm
    · intro i v hm
      rcases mem_mainRun_success hm with h | h | h | h
      · exfalso
        simp [setupTrace] at h
      · rcases h with h | h | h <;> simp at h
      · have hfm : (i, v) ∈ (frameTrace (model.Meshes[0]?.getD default)
            ((getTextures model).getD (0, 0)).1
            ((getTextures model).getD (0, 0)).2).filterMap drawArgs :=
          List.mem_filterMap.mpr ⟨_, h, rfl⟩
        rw [frameTrace_drawArgs] at hfm
        simpa using hfm
      · rcases h with h | h | h <;> simp at h
  · intro idx hm
    simp [mainRun] at hm
  · cases loadOk
    · intro idx hm
      simp [mainRun, setupTrace] at hm
    · intro idx hm
      rcases mem_mainRun_success hm with h | h | h | h
      · exfalso
        simp [setupTrace] at h
      · rcases h with h | h | h <;> simp at h
        exact h
      · exfalso
        have : Event.createIndexBuffer idx ∈ frameTrace (model.Meshes[0]?.getD default)
            ((getTextures model).getD (0, 0)).1 ((getTextures model).getD (0, 0)).2 := h
        simp [frameTrace] at this
      · rcases h with h | h | h <;> simp at h
  · intro vtx hm
    simp [mainRun] at hm
  · cases loadOk
    · intro vtx hm
      simp [mainRun, setupTrace] at hm
    · intro vtx hm
      rcases mem_mainRun_success hm with h | h | h | h
      · exfalso
        simp [setupTrace] at h
      · rcases h with h | h | h <;> simp at h
        exact h
      · exfalso
        have : Event.createVertexBuffer vtx ∈ frameTrace (model.Meshes[0]?.getD default)
            ((getTextures model).getD (0, 0)).1 ((getTextures model).getD (0, 0)).2 := h
        simp [frameTrace] at this
      · rcases h with h | h | h <;> simp at h

/-- C9 witness: a concrete run is unchanged when the model's second mesh is
dropped. -/
theorem only_mesh_zero_used_witness :
    mainRun ⟨true, true,
      { Meshes := [{ MaterialIndex := 0, Indices := [0, 1, 2], Vertices := [] }],
        MaterialMap := [{ BaseColorTextureIndex := 0 }], TextureMap := [7] },
      1⟩ =
    mainRun ⟨true, true, sampleModel, 1⟩ :=
  (only_mesh_zero_used ⟨true, true, sampleModel, 1⟩
    { Meshes := [{ MaterialIndex := 0, Indices := [0, 1, 2], Vertices := [] }],
      MaterialMap := [{ BaseColorTextureIndex := 0 }], TextureMap := [7] }
    (by decide) (by decide) (by decide)).1

/-- C3 counterexample: the claim as stated is false on a concrete run: it
places all pipeline and GPU resource construction before model loading, but
the index-buffer creation (a GPU resource construction, trace position 8)
happens after the load call (trace position 7). -/
theorem resource_construction_after_load :
    ¬ (∀ (i j : Nat) (x y : Event),
        ((mainRun ⟨true, true, sampleModel, 1⟩).2)[i]? = some x →
        ((mainRun ⟨true, true, sampleModel, 1⟩).2)[j]? = some y →
        isResourceConstruction x = true → isLoadEvent y = true → i < j) := by
  intro h
  have h87 := h 8 7 (Event.createIndexBuffer [0, 1, 2])
    (Event.loadModel "assets/models/Suzanne.gltf") rfl rfl rfl rfl
  exact absurd h87 (by decide)

theorem pairwise_phase_append {l1 l2 : List Event} (k : Nat)
    (h1 : List.Pairwise (fun a b => phaseOf a ≤ phaseOf b) l1)
    (h2 : List.Pairwise (fun a b => phaseOf a ≤ phaseOf b) l2)
    (b1 : ∀ x ∈ l1, phaseOf x ≤ k) (b2 : ∀ y ∈ l2, k ≤ phaseOf y) :
    List.Pairwise (fun a b => phaseOf a ≤ phaseOf b) (l1 ++ l2) :=
  List.pairwise_append.mpr ⟨h1, h2, fun x hx y hy => le_trans (b1 x hx) (b2 y hy)⟩

theorem pairwise_le_of_const {f : Event → Nat} {l : List Event} {c : Nat}
    (h : ∀ e ∈ l, f e = c) : List.Pairwise (fun a b => f a ≤ f b) l := by
  induction l with
  | nil => exact List.Pairwise.nil
  | cons a l ih =>
    refine List.pairwise_cons.mpr
      ⟨fun b hb => ?_, ih fun e he => h e (List.mem_cons_of_mem a he)⟩
    rw [h a (List.mem_cons_self a l), h b (List.mem_cons_of_mem a hb)]

theorem frameTrace_phase (mesh0 : Mesh) (b t : Nat) {e : Event}
    (he : e ∈ frameTrace mesh0 b t) : phaseOf e = 4 :=
  map_const_of_mem (f := phaseOf) (l := frameTrace mesh0 b t) (c := 4) rfl he

theorem loopTrace_add (a b : Nat) (frame : List Event) :
    loopTrace (a + b) frame = loopTrace a frame ++ loopTrace b frame := by
  induction a with
  | zero => rw [Nat.zero_add, loopTrace, List.nil_append]
  | succ a ih => rw [Nat.succ_add, loopTrace, loopTrace, ih, List.append_assoc]

theorem preTrace_length (model : Model) : (preTrace model).length = 10 := by
  simp [preTrace, setupTrace]

/-- The success-path trace, with the pre-loop prefix grouped. -/
theorem mainRun_success_trace2 (model : Model) (frames : Nat) :
    (mainRun ⟨true, true, model, frames⟩).2 =
      preTrace model ++
      (loopTrace frames
        (frameTrace (model.Meshes[0]?.getD default)
          ((getTextures model).getD (0, 0)).1
          ((getTextures model).getD (0, 0)).2) ++
       [Event.destroyBuffer "indexBuffer",
        Event.destroyBuffer "vertexBuffer",
        Event.shutdown]) := rfl

theorem frameTrace_framePhase_pairwise (mesh0 : Mesh) (b t : Nat) :
    List.Pairwise (fun a b => framePhase a ≤ framePhase b) (frameTrace mesh0 b t) := by
  refine List.pairwise_map.mp ?_
  have hmap : (frameTrace mesh0 b t).map framePhase =
      [0, 0, 1, 1, 1, 1, 1, 1, 1, 1, 1, 1, 1, 2, 3, 3, 3, 4] := rfl
  rw [hmap]
  decide

/-- C3 amended: in every successful execution the phases happen in the fixed
order initialization → window/pipeline construction → model loading → mesh
buffer creation → per-frame loop → teardown (every event's phase is ≤ that of
every later event), and within each frame the steps happen in the order
tick/transform update → binding → draw → UI → present. -/
theorem main_phase_order (env : Env) (hi : env.initOk = true)
    (hl : env.loadOk = true) :
    List.Pairwise (fun a b => phaseOf a ≤ phaseOf b) (mainRun env).2 ∧
    (∀ i, i < env.frames →
      List.Pairwise (fun a b => framePhase a ≤ framePhase b)
        (((mainRun env).2.drop (10 + 18 * i)).take 18)) := by
  rcases env with ⟨initOk, loadOk, model, frames⟩
  simp only at hi hl
  subst hi
  subst hl
  constructor
  · rw [mainRun_success_trace]
    refine pairwise_phase_append 1 (by decide) ?_ (by decide) ?_
    · refine pairwise_phase_append 3 (by simp [List.pairwise_cons, phaseOf]) ?_ ?_ ?_
      · refine pairwise_phase_append 4
          (pairwise_le_of_const fun e he => frameTrace_phase _ _ _ (mem_loopTrace he))
          (by decide) ?_ (by decide)
        intro x hx
        rw [frameTrace_phase _ _ _ (mem_loopTrace hx)]
      · intro x hx
        simp only [List.mem_cons, List.not_mem_nil, or_false] at hx
        rcases hx with rfl | rfl | rfl <;> simp [phaseOf]
      · intro y hy
        rcases List.mem_append.mp hy with h | h
        · rw [frameTrace_phase _ _ _ (mem_loopTrace h)]
          decide
        · simp only [List.mem_cons, List.not_mem_nil, or_false] at h
          rcases h with rfl | rfl | rfl <;> decide
    · intro y hy
      rcases List.mem_append.mp hy with h | h
      · simp only [List.mem_cons, List.not_mem_nil, or_false] at h
        rcases h with rfl | rfl | rfl <;> simp [phaseOf]
      · rcases List.mem_append.mp h with h | h
        · rw [frameTrace_phase _ _ _ (mem_loopTrace h)]
          decide
        · simp only [List.mem_cons, List.not_mem_nil, or_false] at h
          rcases h with rfl | rfl | rfl <;> decide
  · intro i hif
    have hif' : i < frames := hif
    rw [mainRun_success_trace2, ← List.drop_drop,
      List.drop_left' (preTrace_length model)]
    obtain ⟨k, hk⟩ : ∃ k, frames = i + (k + 1) := ⟨frames - i - 1, by omega⟩
    subst hk
    rw [loopTrace_add, List.append_assoc,
      List.drop_left' (by rw [loopTrace_length, frameTrace_length, Nat.mul_comm]),
      loopTrace, List.append_assoc,
      List.take_left' (frameTrace_length _ _ _)]
    exact frameTrace_framePhase_pairwise _ _ _

/-- C3 amended witness: phase monotonicity and within-frame order on a
concrete two-frame run. -/
theorem main_phase_order_witness :
    List.Pairwise (fun a b => phaseOf a ≤ phaseOf b)
      (mainRun ⟨true, true, sampleModel, 2⟩).2 ∧
    List.Pairwise (fun a b => framePhase a ≤ framePhase b)
      (((mainRun ⟨true, true, sampleModel, 2⟩).2.drop (10 + 18 * 1)).take 18) :=
  ⟨(main_phase_order ⟨true, true, sampleModel, 2⟩ rfl rfl).1,
   (main_phase_order ⟨true, true, sampleModel, 2⟩ rfl rfl).2 1 (by decide)⟩

/-! ## C8: frames run strictly one after the other -/

theorem mainRun_success_getElem (model : Model) (frames i k : Nat)
    (hif : i < frames) (hk : k < 18) :
    ((mainRun ⟨true, true, model, frames⟩).2)[10 + (18 * i + k)]? =
      (frameTrace (model.Meshes[0]?.getD default)
        ((getTextures model).getD (0, 0)).1
        ((getTextures model).getD (0, 0)).2)[k]? := by
  rw [mainRun_success_trace2]
  rw [List.getElem?_append_right (by rw [preTrace_length]; omega)]
  rw [preTrace_length]
  have e1 : 10 + (18 * i + k) - 10 = 18 * i + k := by omega
  rw [e1]
  have hlt : 18 * i + k <
      (loopTrace frames
        (frameTrace (model.Meshes[0]?.getD default)
          ((getTextures model).getD (0, 0)).1
          ((getTextures model).getD (0, 0)).2)).length := by
    rw [loopTrace_length, frameTrace_length]
    omega
  rw [List.getElem?_append_left hlt]
  have e3 : 18 * i + k =
      i * (frameTrace (model.Meshes[0]?.getD default)
        ((getTextures model).getD (0, 0)).1
        ((getTextures model).getD (0, 0)).2).length + k := by
    rw [frameTrace_length]
    omega
  rw [e3, loopTrace_getElem _ _ _ _ hif (by rw [frameTrace_length]; omega)]

/-- C8: the render loop is sequential: for consecutive iterations `i` and
`i+1`, iteration `i`'s `present` call sits at a strictly earlier trace
position than iteration `i+1`'s first event (`onTick`) — each frame completes
its presentation before the next frame begins. (The embedding of `main` is a
single sequential trace; the source spawns no threads.) -/
theorem frames_sequential (env : Env) (hi : env.initOk = true)
    (hl : env.loadOk = true) (i : Nat) (h : i + 1 < env.frames) :
    ((mainRun env).2)[10 + 18 * i + 17]? = some Event.present ∧
    ((mainRun env).2)[10 + 18 * (i + 1)]? = some Event.onTick ∧
    10 + 18 * i + 17 < 10 + 18 * (i + 1) := by
  rcases env with ⟨initOk, loadOk, model, frames⟩
  simp only at hi hl h
  subst hi
  subst hl
  refine ⟨?_, ?_, by omega⟩
  · have e1 : 10 + 18 * i + 17 = 10 + (18 * i + 17) := by omega
    rw [e1, mainRun_success_getElem model frames i 17 (by omega) (by omega)]
    rfl
  · have e2 : 10 + 18 * (i + 1) = 10 + (18 * (i + 1) + 0) := by omega
    rw [e2, mainRun_success_getElem model frames (i + 1) 0 h (by omega)]
    rfl

/-- C8 witness: on a concrete two-frame run, frame 0's present (position 27)
precedes frame 1's first event (position 28). -/
theorem frames_sequential_witness :
    ((mainRun ⟨true, true, sampleModel, 2⟩).2)[10 + 18 * 0 + 17]? =
      some Event.present ∧
    ((mainRun ⟨true, true, sampleModel, 2⟩).2)[10 + 18 * (0 + 1)]? =
      some Event.onTick ∧
    10 + 18 * 0 + 17 < 10 + 18 * (0 + 1) :=
  frames_sequential ⟨true, true, sampleModel, 2⟩ rfl rfl 0 (by decide)

end Vgfw

